import Mathlib

/-!
Verification of the CAN node-ID negotiation specification against
`src/Firmware/communication/interface_can.cpp`.

The source file documents four negotiation rules (a–d) in its header
comment and implements a CAN server thread, frame write/read, baud-rate
selection and a node-ID setter.  The Lease Table, Negotiation Engine and
Traffic Gate described by the spec are not present in the source; where a
claim is decided by that missing code we model it from the spec's words
(definitions marked `Modelled from the spec:`).  Everything else below is
a shallow embedding of the C++ source.
-/

/-- 2^32, the modulus of the `uint32_t` arithmetic used by the firmware. -/
def U32 : Nat := 2 ^ 32

/-- `uint32_t` subtraction `a - b` (wrapping, modulo 2^32), as used in
`now - lastHeartbeatTick` on line 69 of interface_can.cpp. -/
def u32sub (a b : Nat) : Nat := (a % U32 + U32 - b % U32) % U32

/-- Embedding of `CAN_message_t`: identifier, extended flag, data length
code and payload bytes. -/
structure CAN_message_t where
  id : Nat
  isExt : Bool
  len : Nat
  buf : List Nat
deriving DecidableEq

/-- Embedding of `ODriveCAN::Config_t` (the fields interface_can.cpp
touches): `node_id` is a `uint8_t`, `baud` a `uint32_t`. -/
structure Config_t where
  node_id : Nat
  baud : Nat
deriving DecidableEq

/-- The transmit side of the CAN peripheral as the code observes it:
`txFreeLevel` models `HAL_CAN_GetTxMailboxesFreeLevel` (3 mailboxes) and
`sent` is the sequence of frames handed to `HAL_CAN_AddTxMessage`. -/
structure TxHardware where
  txFreeLevel : Nat
  sent : List CAN_message_t
deriving DecidableEq

/-- Embedding of `ODriveCAN::write` (interface_can.cpp lines 133–147).
The local `retTxMailbox` is declared uninitialized; `HAL_CAN_AddTxMessage`
assigns it only when a mailbox is free (the HAL picks the lowest free
mailbox, `3 - txFreeLevel` when mailboxes fill in order), otherwise the
function returns it unassigned — modelled by the `uninit` parameter. -/
def write (hw : TxHardware) (txmsg : CAN_message_t) (uninit : Nat) : TxHardware × Nat :=
  if 0 < hw.txFreeLevel then
    ({ txFreeLevel := hw.txFreeLevel - 1, sent := hw.sent ++ [txmsg] }, 3 - hw.txFreeLevel)
  else
    (hw, uninit)

/-- Base of the heartbeat identifier range: `heartbeat.id = 0x700 +
config_.node_id` (line 55). -/
def HEARTBEAT_ID_BASE : Nat := 0x700

/-- The heartbeat period in kernel ticks: `now - lastHeartbeatTick >= 100`
(line 69). -/
def HEARTBEAT_PERIOD : Nat := 100

/-- The bounded semaphore wait of the server loop:
`osSemaphoreWait(sem_can, 10)` (line 61). -/
def SEM_WAIT_TIMEOUT : Nat := 10

/-- The per-thread state of `ODriveCAN::can_server_thread`: the
`heartbeat` message built once at thread entry and `lastHeartbeatTick`. -/
structure ServerState where
  heartbeat : CAN_message_t
  lastHeartbeatTick : Nat
deriving DecidableEq

/-- Embedding of the entry of `ODriveCAN::can_server_thread`
(lines 53–56): `heartbeat` is a stack local whose only assigned field is
`id = 0x700 + config_.node_id`; its `len` and `buf` keep whatever the
uninitialized stack held (`hbInit`).  `lastHeartbeatTick` is seeded from
the kernel tick. -/
def serverInit (cfg : Config_t) (hbInit : CAN_message_t) (startTick : Nat) : ServerState :=
  { heartbeat := { hbInit with id := HEARTBEAT_ID_BASE + cfg.node_id % 256 },
    lastHeartbeatTick := startTick % U32 }

/-- The drain loop of the server thread (lines 62–65): every available
inbound frame is read and immediately passed to `write`, i.e. echoed back
onto the bus. -/
def drainLoop (hw : TxHardware) (rx : List CAN_message_t) : TxHardware :=
  rx.foldl (fun h m => (write h m 0).1) hw

/-- Embedding of one iteration of the `for (;;)` loop of
`ODriveCAN::can_server_thread` (lines 58–75): wait on the semaphore with a
10-tick bound, drain and echo all pending inbound frames, then if
`now - lastHeartbeatTick >= 100` (uint32 arithmetic) write the heartbeat
and record `now`.  `cfg` is the `config_` field visible to the thread; the
loop body never reads it. -/
def can_server_iter (cfg : Config_t) (s : ServerState) (hw : TxHardware)
    (rx : List CAN_message_t) (now : Nat) : ServerState × TxHardware :=
  let hw1 := drainLoop hw rx
  if HEARTBEAT_PERIOD ≤ u32sub now s.lastHeartbeatTick then
    ({ s with lastHeartbeatTick := now % U32 }, (write hw1 s.heartbeat 0).1)
  else
    (s, hw1)

/-- Embedding of `ODriveCAN::set_node_id` (lines 202–205): stores the
`uint8_t` argument into `config_.node_id` and nothing else. -/
def set_node_id (cfg : Config_t) (nodeID : Nat) : Config_t :=
  { cfg with node_id := nodeID % 256 }

/-- `CAN_BAUD_125K` from the interface header (value forced by the 42 MHz
clock, prescaler 16 and 21 time quanta documented on lines 172–178). -/
def CAN_BAUD_125K : Nat := 125000

/-- `CAN_BAUD_250K`. -/
def CAN_BAUD_250K : Nat := 250000

/-- `CAN_BAUD_500K`. -/
def CAN_BAUD_500K : Nat := 500000

/-- `CAN_BAUD_1000K`. -/
def CAN_BAUD_1000K : Nat := 1000000

/-- The state `ODriveCAN::set_baud_rate` mutates: the peripheral's
`handle_->Init.Prescaler` and the stored `config_.baud`. -/
structure BaudState where
  prescaler : Nat
  baud : Nat
deriving DecidableEq

/-- Embedding of `ODriveCAN::set_baud_rate` (lines 175–200): a switch on
the four supported rates setting prescaler and recording the rate; the
default case does nothing. -/
def set_baud_rate (s : BaudState) (baudRate : Nat) : BaudState :=
  if baudRate = CAN_BAUD_125K then { prescaler := 16, baud := baudRate }
  else if baudRate = CAN_BAUD_250K then { prescaler := 8, baud := baudRate }
  else if baudRate = CAN_BAUD_500K then { prescaler := 4, baud := baudRate }
  else if baudRate = CAN_BAUD_1000K then { prescaler := 2, baud := baudRate }
  else s

/-- Embedding of the `CAN_FilterTypeDef` fields set in
`start_can_server` (lines 91–100). -/
structure CAN_FilterTypeDef where
  filterIdHigh : Nat
  filterIdLow : Nat
  filterMaskIdHigh : Nat
  filterMaskIdLow : Nat
deriving DecidableEq

/-- The receive filter installed by `start_can_server`: id 0x0000/0x0000,
mask 0x0000/0x0000, 32-bit id-mask mode, FIFO0 (lines 95–100). -/
def serverFilter : CAN_FilterTypeDef :=
  { filterIdHigh := 0, filterIdLow := 0, filterMaskIdHigh := 0, filterMaskIdLow := 0 }

/-- STM32 32-bit id-mask filtering: an identifier matches the filter when
it agrees with the filter id on every bit selected by the mask. -/
def filterMatches (f : CAN_FilterTypeDef) (ident : Nat) : Bool :=
  decide ((ident &&& (f.filterMaskIdHigh * 65536 + f.filterMaskIdLow)) =
    ((f.filterIdHigh * 65536 + f.filterIdLow) &&& (f.filterMaskIdHigh * 65536 + f.filterMaskIdLow)))

/-- Outcomes of the four HAL calls made by `start_can_server`
(`HAL_CAN_Init`, `HAL_CAN_ConfigFilter`, `HAL_CAN_Start`, the
notification activation), each `HAL_OK` or not. -/
structure HalSteps where
  initOk : Bool
  configFilterOk : Bool
  startOk : Bool
  activateOk : Bool
deriving DecidableEq

/-- Embedding of the control flow of `ODriveCAN::start_can_server`
(lines 83–128): each HAL step is checked once and a failure returns
`false` immediately; no step is retried. -/
def start_can_server (steps : HalSteps) : Bool :=
  if !steps.initOk then false
  else if !steps.configFilterOk then false
  else if !steps.startOk then false
  else if !steps.activateOk then false
  else true

/-- Embedding of `HAL_CAN_TxMailbox0CompleteCallback` (line 207): the body
is empty, so on any state the node could observe it is the identity. -/
def HAL_CAN_TxMailbox0CompleteCallback {α : Type} (s : α) : α := s

/-- Embedding of `HAL_CAN_TxMailbox0AbortCallback` (line 210): empty body,
identity on any observable state. -/
def HAL_CAN_TxMailbox0AbortCallback {α : Type} (s : α) : α := s

/-! ### Spec-modelled Lease Table, Negotiation Engine and Traffic Gate

The source file documents rules a–d but contains no lease storage, no
candidate selection and no traffic gate; the following definitions are
modelled from the spec (§4.1–§4.3) to state the claims about those
components. -/

/-- Modelled from the spec (§3): the claim state of one lease entry.  Not
present in src/. -/
inductive LeaseState where
  | Free
  | TakenByOther
  | SelfHeld
deriving DecidableEq

/-- Modelled from the spec (§3): a `LeaseEntry` with its state and last
refresh timestamp.  Not present in src/. -/
structure LeaseEntry where
  state : LeaseState
  last_refresh : Nat
deriving DecidableEq

/-- Modelled from the spec (rules a/b: "within the last second"): the
lease window in kernel ticks (1 kHz tick ⇒ 1000 ticks). -/
def LEASE_WINDOW : Nat := 1000

/-- Modelled from the spec (§4.1): `refresh_taken(id, at)` unconditionally
marks `id` TakenByOther at `at`.  The table is one entry per possible ID,
indexed by ID.  Not present in src/. -/
def refresh_taken (t : List LeaseEntry) (id at_ : Nat) : List LeaseEntry :=
  t.set id { state := LeaseState.TakenByOther, last_refresh := at_ }

/-- Modelled from the spec (§4.1): `refresh_self(id, at)` marks `id`
SelfHeld at `at`.  Not present in src/. -/
def refresh_self (t : List LeaseEntry) (id at_ : Nat) : List LeaseEntry :=
  t.set id { state := LeaseState.SelfHeld, last_refresh := at_ }

/-- Modelled from the spec (§4.1): `is_free(id, now)` holds iff the entry
is Free or stale (`now - last_refresh ≥ LEASE_WINDOW`).  Not present in
src/. -/
def is_free (t : List LeaseEntry) (id now : Nat) : Bool :=
  decide ((t.getD id { state := LeaseState.Free, last_refresh := 0 }).state = LeaseState.Free ∨
    LEASE_WINDOW ≤ now - (t.getD id { state := LeaseState.Free, last_refresh := 0 }).last_refresh)

/-- Modelled from the spec (§4.1): `is_self_held(id, now)` holds iff the
entry is SelfHeld and fresh.  Not present in src/. -/
def is_self_held (t : List LeaseEntry) (id now : Nat) : Bool :=
  decide ((t.getD id { state := LeaseState.Free, last_refresh := 0 }).state = LeaseState.SelfHeld ∧
    now - (t.getD id { state := LeaseState.Free, last_refresh := 0 }).last_refresh < LEASE_WINDOW)

/-- Modelled from the spec (§4.3/§7): `try_send_regular`'s failure. -/
inductive GateError where
  | NotAssigned
deriving DecidableEq

/-- Modelled from the spec (§4.3): the Traffic Gate's `try_send_regular`:
fails with `NotAssigned` when the engine's current assignment is none,
otherwise stamps the frame with the held ID.  Not present in src/. -/
def try_send_regular (assignment : Option Nat) (frame : CAN_message_t) :
    Except GateError CAN_message_t :=
  match assignment with
  | none => Except.error GateError.NotAssigned
  | some id => Except.ok { frame with id := id }

/-- Modelled from the spec (§4.2): the Negotiation Engine's per-node
states.  Not present in src/. -/
inductive EngineState where
  | Unassigned
  | Probing (id : Nat)
  | Held (id : Nat)
deriving DecidableEq

/-- Modelled from the spec (§7): the fatal negotiation error. -/
inductive NegotiationError where
  | IdSpaceExhausted
deriving DecidableEq

/-- Modelled from the spec (§4.2): scan of the ID space, visiting
`(serial + i) % n` for `i = first, first+1, …` while `fuel` steps remain,
and returning the first visited ID for which `is_free(id, now)` holds.
Not present in src/. -/
def scanAux (t : List LeaseEntry) (serial now n : Nat) : Nat → Nat → Option Nat
  | _, 0 => none
  | i, Nat.succ fuel =>
    if is_free t ((serial + i) % n) now then some ((serial + i) % n)
    else scanAux t serial now n (i + 1) fuel

/-- Modelled from the spec (§4.2): the first ID in scan order — starting
from an offset derived from the NodeSerial — for which `is_free(id, now)`
holds, over the whole ID space of size `n`.  Not present in src/. -/
def selectCandidate (t : List LeaseEntry) (serial now n : Nat) : Option Nat :=
  scanAux t serial now n 0 n

/-- Modelled from the spec (§4.2/§7): candidate reselection when the
current ID is not self-held: move to `Probing` on the first free ID in
scan order, or raise `IdSpaceExhausted` when a full scan finds none.  Not
present in src/. -/
def reselect (t : List LeaseEntry) (serial now n : Nat) :
    Except NegotiationError EngineState :=
  match selectCandidate t serial now n with
  | some id => Except.ok (EngineState.Probing id)
  | none => Except.error NegotiationError.IdSpaceExhausted

/-! ### Concrete fixtures used by the closed theorems -/

/-- Modelled from the spec (§3): a concrete 8-byte NodeSerial (the
hardware-unique serial is seeded outside interface_can.cpp). -/
def NODE_SERIAL : List Nat := [1, 2, 3, 4, 5, 6, 7, 8]

/-- A concrete configuration: node ID 4, 250 kbit/s. -/
def cfg4 : Config_t := { node_id := 4, baud := CAN_BAUD_250K }

/-- A concrete stack image for the uninitialized `heartbeat` local:
all-zero bytes, length field 0. -/
def hbZero : CAN_message_t := { id := 0, isExt := false, len := 0, buf := List.replicate 8 0 }

/-- A concrete regular (non-heartbeat) frame with identifier 0x123. -/
def msgRegular : CAN_message_t := { id := 0x123, isExt := false, len := 2, buf := [10, 20] }

/-- A concrete foreign heartbeat frame: identifier 0x705 (node ID 5),
payload a foreign serial. -/
def msgForeignHb : CAN_message_t :=
  { id := 0x705, isExt := false, len := 8, buf := [9, 9, 9, 9, 9, 9, 9, 9] }

/-- An idle transmit peripheral: all 3 mailboxes free, nothing sent. -/
def hwIdle : TxHardware := { txFreeLevel := 3, sent := [] }

/-- A concrete lease table over a 8-ID space, all entries Free at boot. -/
def tableFree : List LeaseEntry :=
  List.replicate 8 { state := LeaseState.Free, last_refresh := 0 }

/-- A concrete 3-ID lease table: IDs 0 and 1 freshly TakenByOther, ID 2
Free (the scan scenario of spec §8). -/
def tableScan : List LeaseEntry :=
  [{ state := LeaseState.TakenByOther, last_refresh := 0 },
   { state := LeaseState.TakenByOther, last_refresh := 0 },
   { state := LeaseState.Free, last_refresh := 0 }]

/-- A concrete 2-ID lease table with both IDs freshly TakenByOther (the
exhaustion scenario of spec §8). -/
def tableTaken2 : List LeaseEntry :=
  [{ state := LeaseState.TakenByOther, last_refresh := 0 },
   { state := LeaseState.TakenByOther, last_refresh := 0 }]

/-! ### Helper lemmas -/

/-- What a successful scan returns: the first visited ID that is free. -/
lemma scanAux_eq_some (t : List LeaseEntry) (serial now n : Nat) :
    ∀ fuel i id, scanAux t serial now n i fuel = some id →
      ∃ k, i ≤ k ∧ k < i + fuel ∧ id = (serial + k) % n ∧
        is_free t id now = true ∧
        ∀ j, i ≤ j → j < k → is_free t ((serial + j) % n) now = false := by
  intro fuel
  induction fuel with
  | zero => intro i id h; simp [scanAux] at h
  | succ fuel ih =>
    intro i id h
    by_cases hf : is_free t ((serial + i) % n) now = true
    · have hid : id = (serial + i) % n := by
        simp [scanAux, hf] at h
        exact h.symm
      exact ⟨i, Nat.le_refl i, by omega, hid, hid ▸ hf,
        fun j hj1 hj2 => absurd hj1 (by omega)⟩
    · have h2 : scanAux t serial now n (i + 1) fuel = some id := by
        simpa [scanAux, hf] using h
      obtain ⟨k, hk1, hk2, hk3, hk4, hk5⟩ := ih (i + 1) id h2
      refine ⟨k, by omega, by omega, hk3, hk4, fun j hj1 hj2 => ?_⟩
      rcases Nat.eq_or_lt_of_le hj1 with he | hl
      · rw [← he]
        exact Bool.not_eq_true _ ▸ (by simpa using hf)
      · exact hk5 j hl hj2

/-- A scan returns `none` exactly when no visited ID is free. -/
lemma scanAux_eq_none (t : List LeaseEntry) (serial now n : Nat) :
    ∀ fuel i, scanAux t serial now n i fuel = none ↔
      ∀ k, i ≤ k → k < i + fuel → is_free t ((serial + k) % n) now = false := by
  intro fuel
  induction fuel with
  | zero =>
    intro i
    simp [scanAux]
    intro k hk1 hk2
    omega
  | succ fuel ih =>
    intro i
    by_cases hf : is_free t ((serial + i) % n) now = true
    · simp only [scanAux, hf, if_true]
      constructor
      · intro h; exact absurd h (by simp)
      · intro h
        have := h i (Nat.le_refl i) (by omega)
        rw [hf] at this
        exact absurd this (by simp)
    · simp only [scanAux, if_neg hf]
      rw [ih (i + 1)]
      constructor
      · intro h k hk1 hk2
        rcases Nat.eq_or_lt_of_le hk1 with he | hl
        · rw [← he]
          simpa using hf
        · exact h k hl (by omega)
      · intro h k hk1 hk2
        exact h k (by omega) (by omega)

/-- Every ID below `n` is visited by a full scan: `(serial + k) % n`
covers all residues as `k` ranges over `[0, n)`. -/
lemma mod_coverage (serial n id : Nat) (h : id < n) :
    ∃ k, k < n ∧ (serial + k) % n = id := by
  have hn : 0 < n := by omega
  have hr : serial % n < n := Nat.mod_lt _ hn
  by_cases hc : serial % n ≤ id
  · refine ⟨id - serial % n, by omega, ?_⟩
    have h1 : (id - serial % n) % n = id - serial % n := Nat.mod_eq_of_lt (by omega)
    rw [Nat.add_mod, h1]
    have h2 : serial % n + (id - serial % n) = id := by omega
    rw [h2, Nat.mod_eq_of_lt h]
  · refine ⟨n + id - serial % n, by omega, ?_⟩
    have h1 : (n + id - serial % n) % n = n + id - serial % n := Nat.mod_eq_of_lt (by omega)
    rw [Nat.add_mod, h1]
    have h2 : serial % n + (n + id - serial % n) = n + id := by omega
    rw [h2, Nat.add_mod_left, Nat.mod_eq_of_lt h]

/-- Draining with enough free mailboxes echoes every inbound frame, in
order, and consumes one mailbox per frame. -/
lemma drainLoop_sent (rx : List CAN_message_t) (hw : TxHardware)
    (h : rx.length ≤ hw.txFreeLevel) :
    (drainLoop hw rx).sent = hw.sent ++ rx ∧
      (drainLoop hw rx).txFreeLevel = hw.txFreeLevel - rx.length := by
  induction rx generalizing hw with
  | nil => simp [drainLoop]
  | cons m ms ih =>
    have hpos : 0 < hw.txFreeLevel := by
      simp only [List.length_cons] at h
      omega
    have hstep : (write hw m 0).1 =
        { txFreeLevel := hw.txFreeLevel - 1, sent := hw.sent ++ [m] } := by
      simp [write, hpos]
    have hrec : drainLoop hw (m :: ms) =
        drainLoop { txFreeLevel := hw.txFreeLevel - 1, sent := hw.sent ++ [m] } ms := by
      simp [drainLoop, hstep]
    rw [hrec]
    have hlen : ms.length ≤ hw.txFreeLevel - 1 := by
      simp only [List.length_cons] at h
      omega
    obtain ⟨h1, h2⟩ := ih { txFreeLevel := hw.txFreeLevel - 1, sent := hw.sent ++ [m] } hlen
    constructor
    · rw [h1]
      simp
    · rw [h2]
      simp only [List.length_cons]
      omega

/-- `uint32_t` subtraction of wrapped timestamps recovers the true
elapsed interval, as long as it is below 2^32. -/
lemma u32sub_correct (a b : Nat) (hle : b ≤ a) (hlt : a - b < U32) :
    u32sub (a % U32) (b % U32) = a - b := by
  have hm : 0 < U32 := by
    have : (0 : Nat) < 2 ^ 32 := Nat.pos_pow_of_pos 32 (by omega)
    simpa [U32] using this
  have hr : b % U32 < U32 := Nat.mod_lt _ hm
  have hd : (a - b) % U32 = a - b := Nat.mod_eq_of_lt hlt
  have ha : a % U32 = (b % U32 + (a - b)) % U32 := by
    conv_lhs => rw [show a = b + (a - b) by omega]
    rw [Nat.add_mod, hd]
  rw [u32sub, Nat.mod_mod_of_dvd a (dvd_refl U32), Nat.mod_mod_of_dvd b (dvd_refl U32), ha]
  by_cases hcase : b % U32 + (a - b) < U32
  · rw [Nat.mod_eq_of_lt hcase]
    have h3 : b % U32 + (a - b) + U32 - b % U32 = (a - b) + U32 := by omega
    rw [h3, Nat.add_mod_right, hd]
  · have h4 : (b % U32 + (a - b)) % U32 = b % U32 + (a - b) - U32 := by
      rw [Nat.mod_eq_sub_mod (by omega), Nat.mod_eq_of_lt (by omega)]
    rw [h4]
    have h5 : b % U32 + (a - b) - U32 + U32 - b % U32 = a - b := by omega
    rw [h5, hd]


/-! ### Claim theorems -/

/-- Claim C1: the spec says regular frames are sent only while the local
ID is SelfHeld, through a gate that fails with `NotAssigned` when no ID is
held.  The code has no such gate: the server loop forwards every received
regular frame to `write` unconditionally — here a frame with identifier
0x123 is transmitted although the node holds no ID (the code carries no
assignment state at all) — whereas the spec's `try_send_regular` with no
assignment fails with `NotAssigned` and transmits nothing. -/
theorem regular_emission_ungated :
    (can_server_iter cfg4 (serverInit cfg4 hbZero 0) hwIdle [msgRegular] 50).2.sent =
      [msgRegular] ∧
    try_send_regular none msgRegular = Except.error GateError.NotAssigned := by
  exact ⟨rfl, rfl⟩

/-- Claim C2: the spec says every emitted heartbeat has identifier derived
from the node ID, payload exactly the 8-byte NodeSerial, and length 8.
The code sets only `heartbeat.id = 0x700 + node_id` at thread entry; the
payload and length fields are never assigned and keep whatever the
uninitialized stack held, so the emitted heartbeat's payload is not the
NodeSerial and its length is not 8. -/
theorem heartbeat_payload_uninitialized :
    (∀ cfg hbInit startTick,
       (serverInit cfg hbInit startTick).heartbeat.id =
         HEARTBEAT_ID_BASE + cfg.node_id % 256 ∧
       (serverInit cfg hbInit startTick).heartbeat.buf = hbInit.buf ∧
       (serverInit cfg hbInit startTick).heartbeat.len = hbInit.len) ∧
    (can_server_iter cfg4 (serverInit cfg4 hbZero 0) hwIdle [] 100).2.sent =
      [(serverInit cfg4 hbZero 0).heartbeat] ∧
    (serverInit cfg4 hbZero 0).heartbeat.buf ≠ NODE_SERIAL ∧
    (serverInit cfg4 hbZero 0).heartbeat.len ≠ 8 := by
  refine ⟨fun cfg hbInit startTick => ⟨rfl, rfl, rfl⟩, rfl, by decide, by decide⟩

/-- Claim C3: the spec says a heartbeat transmission that is not accepted
within a bounded wait triggers `refresh_taken(id, now)` and a transition
to Unassigned.  The code's transmit-outcome observers — the TX mailbox
complete and abort callbacks — have empty bodies, so a failed send changes
nothing: after a failed heartbeat for ID 5 at time 0 the lease table still
reports ID 5 free, while the claimed `refresh_taken(5, 0)` would make
`is_free(5, 0)` false. -/
theorem tx_callbacks_never_mark_taken :
    (∀ t : List LeaseEntry, HAL_CAN_TxMailbox0CompleteCallback t = t ∧
       HAL_CAN_TxMailbox0AbortCallback t = t) ∧
    is_free (HAL_CAN_TxMailbox0AbortCallback tableFree) 5 0 = true ∧
    is_free (refresh_taken tableFree 5 0) 5 0 = false := by
  refine ⟨fun t => ⟨rfl, rfl⟩, by decide, by decide⟩

/-- Claim C7: the spec says `start_can_server` installs a receive filter
that distinguishes the heartbeat identifier sub-range from regular
traffic, and returns failure immediately on any failed configure/start
step.  The early-return part holds, but the installed filter has id 0 and
mask 0, so every identifier — the regular identifier 0x123 just like a
heartbeat identifier — matches filter bank 0 into FIFO0: the filter
distinguishes nothing. -/
theorem server_filter_accepts_everything :
    (∀ ident, filterMatches serverFilter ident = true) ∧
    filterMatches serverFilter 0x123 = true ∧
    filterMatches serverFilter (HEARTBEAT_ID_BASE + 4) = true ∧
    (∀ steps, start_can_server steps =
      (steps.initOk && steps.configFilterOk && steps.startOk && steps.activateOk)) := by
  refine ⟨fun ident => ?_, by decide, by decide, fun steps => ?_⟩
  · simp [filterMatches, serverFilter]
  · rcases steps with ⟨i, c, st, a⟩
    cases i <;> cases c <;> cases st <;> cases a <;> rfl

/-- Claim C9: `ODriveCAN::write` hands the frame to the transmit hardware
only when a TX mailbox is free; with no free mailbox the frame is silently
dropped and the function returns the never-assigned local (an
indeterminate value), so a caller cannot distinguish a successful enqueue
(mailbox number 0) from a drop whose indeterminate value happens to be
0. -/
theorem write_mailbox_gating (hw : TxHardware) (msg : CAN_message_t) (uninit : Nat) :
    (0 < hw.txFreeLevel →
       (write hw msg uninit).1.sent = hw.sent ++ [msg] ∧
       (write hw msg uninit).2 = 3 - hw.txFreeLevel) ∧
    (hw.txFreeLevel = 0 →
       (write hw msg uninit).1 = hw ∧ (write hw msg uninit).2 = uninit) ∧
    (write hwIdle msgRegular 0).2 = (write { txFreeLevel := 0, sent := [] } msgRegular 0).2 := by
  refine ⟨fun h => ?_, fun h => ?_, rfl⟩
  · simp [write, h]
  · simp [write, h]

/-- Witness for C9 at concrete inputs: two free mailboxes ⇒ the frame is
appended to the transmit queue; zero free mailboxes ⇒ state unchanged and
the uninitialized value 7 is returned. -/
theorem write_mailbox_gating_witness :
    (write { txFreeLevel := 2, sent := [] } msgRegular 7).1.sent = [] ++ [msgRegular] ∧
    (write { txFreeLevel := 0, sent := [] } msgRegular 7).1 =
      { txFreeLevel := 0, sent := [] } ∧
    (write { txFreeLevel := 0, sent := [] } msgRegular 7).2 = 7 :=
  ⟨((write_mailbox_gating { txFreeLevel := 2, sent := [] } msgRegular 7).1 (by decide)).1,
   ((write_mailbox_gating { txFreeLevel := 0, sent := [] } msgRegular 7).2.1 rfl).1,
   ((write_mailbox_gating { txFreeLevel := 0, sent := [] } msgRegular 7).2.1 rfl).2⟩

/-- Claim C10: `set_node_id` mutates only `config_.node_id`; the heartbeat
identifier is computed once at thread entry as `0x700 + node_id` and no
later configuration change reaches the running loop: the loop preserves
the heartbeat message and its result does not depend on the configuration
argument at all. -/
theorem set_node_id_does_not_reach_running_server :
    (∀ cfg n, (set_node_id cfg n).node_id = n % 256 ∧
       (set_node_id cfg n).baud = cfg.baud) ∧
    (∀ cfg hbInit startTick,
       (serverInit cfg hbInit startTick).heartbeat.id =
         HEARTBEAT_ID_BASE + cfg.node_id % 256) ∧
    (∀ cfg s hw rx now, ((can_server_iter cfg s hw rx now).1).heartbeat = s.heartbeat) ∧
    (∀ cfgA cfgB s hw rx now,
       can_server_iter cfgA s hw rx now = can_server_iter cfgB s hw rx now) := by
  refine ⟨fun cfg n => ⟨rfl, rfl⟩, fun cfg hbInit startTick => rfl,
    fun cfg s hw rx now => ?_, fun cfgA cfgB s hw rx now => rfl⟩
  unfold can_server_iter
  split <;> rfl

/-- Claim C8: `set_baud_rate` accepts exactly the four standard rates
125k/250k/500k/1000k, setting prescaler 16, 8, 4 and 2 respectively — each
giving 21 time quanta from the 42 MHz peripheral clock — and records the
rate; any other argument leaves both the prescaler and the stored
configuration unchanged. -/
theorem set_baud_rate_four_rates (s : BaudState) (b : Nat)
    (h1 : b ≠ CAN_BAUD_125K) (h2 : b ≠ CAN_BAUD_250K)
    (h3 : b ≠ CAN_BAUD_500K) (h4 : b ≠ CAN_BAUD_1000K) :
    set_baud_rate s CAN_BAUD_125K = { prescaler := 16, baud := CAN_BAUD_125K } ∧
    set_baud_rate s CAN_BAUD_250K = { prescaler := 8, baud := CAN_BAUD_250K } ∧
    set_baud_rate s CAN_BAUD_500K = { prescaler := 4, baud := CAN_BAUD_500K } ∧
    set_baud_rate s CAN_BAUD_1000K = { prescaler := 2, baud := CAN_BAUD_1000K } ∧
    set_baud_rate s b = s ∧
    42000000 = CAN_BAUD_125K * (16 * 21) ∧
    42000000 = CAN_BAUD_250K * (8 * 21) ∧
    42000000 = CAN_BAUD_500K * (4 * 21) ∧
    42000000 = CAN_BAUD_1000K * (2 * 21) := by
  refine ⟨rfl, rfl, rfl, rfl, ?_, by decide, by decide, by decide, by decide⟩
  simp [set_baud_rate, h1, h2, h3, h4]

/-- Witness for C8 at a concrete input: the unsupported rate 300000 leaves
an existing configuration untouched. -/
theorem set_baud_rate_four_rates_witness :
    set_baud_rate { prescaler := 16, baud := CAN_BAUD_125K } 300000 =
      { prescaler := 16, baud := CAN_BAUD_125K } :=
  (set_baud_rate_four_rates { prescaler := 16, baud := CAN_BAUD_125K } 300000
    (by decide) (by decide) (by decide) (by decide)).2.2.2.2.1

/-- Claim C4 (spec-modelled; the Negotiation Engine is absent from src/):
whenever the current ID is not self-held the engine scans the ID space
starting from an offset derived from the NodeSerial and moves to
`Probing` on the first ID for which `is_free(id, now)` holds; a full scan
with no free entry yields `IdSpaceExhausted` instead of a candidate. -/
theorem reselect_first_free_or_exhausted (t : List LeaseEntry) (serial now n : Nat) :
    (∀ id, reselect t serial now n = Except.ok (EngineState.Probing id) →
       is_free t id now = true ∧
       ∃ k, k < n ∧ id = (serial + k) % n ∧
         ∀ j, j < k → is_free t ((serial + j) % n) now = false) ∧
    (reselect t serial now n = Except.error NegotiationError.IdSpaceExhausted ↔
       ∀ id, id < n → is_free t id now = false) := by
  constructor
  · intro id h
    have hsel : selectCandidate t serial now n = some id := by
      unfold reselect at h
      cases hs : selectCandidate t serial now n with
      | none => rw [hs] at h; exact absurd h (by simp)
      | some x =>
        rw [hs] at h
        simp only [Except.ok.injEq, EngineState.Probing.injEq] at h
        rw [h]
    obtain ⟨k, hk0, hkfuel, hkid, hkfree, hkfirst⟩ :=
      scanAux_eq_some t serial now n n 0 id hsel
    exact ⟨hkfree, k, by omega, hkid, fun j hj => hkfirst j (Nat.zero_le j) hj⟩
  · constructor
    · intro h id hid
      have hnone : selectCandidate t serial now n = none := by
        unfold reselect at h
        cases hs : selectCandidate t serial now n with
        | none => rfl
        | some x => rw [hs] at h; exact absurd h (by simp)
      have hall := (scanAux_eq_none t serial now n n 0).mp hnone
      obtain ⟨k, hk, hkeq⟩ := mod_coverage serial n id hid
      have hfk := hall k (Nat.zero_le k) (by omega)
      rw [hkeq] at hfk
      exact hfk
    · intro h
      have hnone : selectCandidate t serial now n = none := by
        apply (scanAux_eq_none t serial now n n 0).mpr
        intro k hk0 hkn
        by_cases hn : 0 < n
        · exact h ((serial + k) % n) (Nat.mod_lt _ hn)
        · omega
      unfold reselect
      rw [hnone]

/-- Witness for C4 at concrete inputs (the §8 scenarios): in a 3-ID space
with IDs 0 and 1 freshly taken, the scan lands on the free ID 2; in a
2-ID space with both IDs freshly taken, the exhaustion branch certifies
that no ID below 2 is free. -/
theorem reselect_first_free_or_exhausted_witness :
    (is_free tableScan 2 0 = true ∧
      ∃ k, k < 3 ∧ 2 = (0 + k) % 3 ∧
        ∀ j, j < k → is_free tableScan ((0 + j) % 3) 0 = false) ∧
    (∀ id, id < 2 → is_free tableTaken2 id 0 = false) :=
  ⟨(reselect_first_free_or_exhausted tableScan 0 0 3).1 2 rfl,
   (reselect_first_free_or_exhausted tableTaken2 5 0 2).2.mp rfl⟩

/-- Claim C5 (counterexample): the claim says each drained inbound frame
is classified heartbeat vs. regular and dispatched to the Negotiation
Engine.  On a concrete foreign heartbeat the loop instead retransmits the
frame verbatim onto the bus and leaves the thread state — the only state
the loop carries — unchanged: nothing is classified, no engine state
exists to receive a dispatch, and the frame reappears as outbound
traffic. -/
theorem drain_echoes_no_dispatch :
    (can_server_iter cfg4 (serverInit cfg4 hbZero 0) hwIdle [msgForeignHb] 50).1 =
      serverInit cfg4 hbZero 0 ∧
    (can_server_iter cfg4 (serverInit cfg4 hbZero 0) hwIdle [msgForeignHb] 50).2.sent =
      [msgForeignHb] :=
  ⟨rfl, rfl⟩

/-- Claim C5 (amended): on every iteration all pending inbound frames are
drained first — each unconditionally retransmitted via `write`, with no
classification or engine dispatch — and only then is the heartbeat tick
driven; the semaphore wait is bounded by 10 ticks, one tenth of the
100-tick heartbeat period, so the tick is reached even on a silent
bus. -/
theorem drain_before_tick_bounded_wait (cfg : Config_t) (s : ServerState)
    (hw : TxHardware) (rx : List CAN_message_t) (now : Nat)
    (h : rx.length + 1 ≤ hw.txFreeLevel) :
    (can_server_iter cfg s hw rx now).2.sent =
      hw.sent ++ rx ++
        (if HEARTBEAT_PERIOD ≤ u32sub now s.lastHeartbeatTick
          then [s.heartbeat] else []) ∧
    SEM_WAIT_TIMEOUT * 10 = HEARTBEAT_PERIOD := by
  obtain ⟨h1, h2⟩ := drainLoop_sent rx hw (by omega)
  refine ⟨?_, rfl⟩
  simp only [can_server_iter]
  by_cases hd : HEARTBEAT_PERIOD ≤ u32sub now s.lastHeartbeatTick
  · rw [if_pos hd, if_pos hd]
    have hpos : 0 < (drainLoop hw rx).txFreeLevel := by omega
    simp [write, hpos, h1]
  · rw [if_neg hd, if_neg hd]
    simp [h1]

/-- Witness for the amended C5 at a concrete input: with three free
mailboxes, a regular frame and a foreign heartbeat are both echoed before
the due heartbeat is appended. -/
theorem drain_before_tick_bounded_wait_witness :
    (can_server_iter cfg4 (serverInit cfg4 hbZero 0) hwIdle
        [msgRegular, msgForeignHb] 200).2.sent =
      hwIdle.sent ++ [msgRegular, msgForeignHb] ++
        (if HEARTBEAT_PERIOD ≤ u32sub 200 (serverInit cfg4 hbZero 0).lastHeartbeatTick
          then [(serverInit cfg4 hbZero 0).heartbeat] else []) ∧
    SEM_WAIT_TIMEOUT * 10 = HEARTBEAT_PERIOD :=
  drain_before_tick_bounded_wait cfg4 (serverInit cfg4 hbZero 0) hwIdle
    [msgRegular, msgForeignHb] 200 (by decide)

/-- Claim C6: a heartbeat send is attempted on a loop iteration iff the
elapsed time since the last heartbeat, computed by the wrapping `uint32_t`
subtraction `now - lastHeartbeatTick`, is at least the 100-tick period;
the subtraction recovers the true elapsed interval even when the 32-bit
tick counter wraps around. -/
theorem heartbeat_due_iff_elapsed (cfg : Config_t) (s : ServerState) (hw : TxHardware)
    (tPrev tNow : Nat) (hlast : s.lastHeartbeatTick = tPrev % U32)
    (hle : tPrev ≤ tNow) (hlt : tNow - tPrev < U32) (hfree : 0 < hw.txFreeLevel) :
    u32sub (tNow % U32) (tPrev % U32) = tNow - tPrev ∧
    ((can_server_iter cfg s hw [] (tNow % U32)).2.sent = hw.sent ++ [s.heartbeat] ↔
       HEARTBEAT_PERIOD ≤ tNow - tPrev) := by
  have hu : u32sub ((tNow % U32) % U32) ((tPrev % U32) % U32) = tNow - tPrev := by
    rw [Nat.mod_mod_of_dvd tNow (dvd_refl U32), Nat.mod_mod_of_dvd tPrev (dvd_refl U32)]
    exact u32sub_correct tNow tPrev hle hlt
  have hu2 : u32sub (tNow % U32) (tPrev % U32) = tNow - tPrev := by
    have := hu
    rwa [Nat.mod_mod_of_dvd tNow (dvd_refl U32), Nat.mod_mod_of_dvd tPrev (dvd_refl U32)] at this
  refine ⟨hu2, ?_⟩
  simp only [can_server_iter, drainLoop, List.foldl_nil]
  rw [hlast, hu2]
  by_cases hd : HEARTBEAT_PERIOD ≤ tNow - tPrev
  · rw [if_pos hd]
    simp [write, hfree, hd]
  · rw [if_neg hd]
    simp [hd]

/-- Witness for C6 across a counter wrap: last heartbeat 30 ticks before
the 2^32 wrap, current time 80 ticks after it — true elapsed interval 110
ticks — so the wrapping subtraction yields 110 and the heartbeat is
emitted. -/
theorem heartbeat_due_iff_elapsed_witness :
    u32sub ((U32 + 80) % U32) ((U32 - 30) % U32) = 110 ∧
    (can_server_iter cfg4 (serverInit cfg4 hbZero (U32 - 30)) hwIdle []
        ((U32 + 80) % U32)).2.sent =
      hwIdle.sent ++ [(serverInit cfg4 hbZero (U32 - 30)).heartbeat] := by
  have h := heartbeat_due_iff_elapsed cfg4 (serverInit cfg4 hbZero (U32 - 30)) hwIdle
    (U32 - 30) (U32 + 80) rfl (by norm_num [U32]) (by norm_num [U32]) (by decide)
  refine ⟨?_, h.2.mpr (by norm_num [U32, HEARTBEAT_PERIOD])⟩
  rw [h.1]
  norm_num [U32]
